import Mathlib

/-!
# The OpenCL execution stream, `gpu/intel/ocl/ocl_stream.hpp`

A shallow embedding of `ocl_stream_t`.  Methods become functions that take the
stream value (the members reachable from `this`) and a `Device`, the state of
the world outside the stream, and give back their result together with the
new stream value and the new device.  The device keeps a log of the calls made
on collaborators, so that "is never called" and "exactly once" are statements
about that log.  A method that returns a reference to a context returns a
`ref_t`, which names the object designated; reads and stores go through it.

Code that the header only declares or includes (the status codes, the macros
`CHECK` and `OCL_CHECK`, `init`, `copy`, `fill`, the profiler, the thread local
storage, the context type) is either a field of `Runtime`, when a method of
the header only passes its outcome on, or a definition whose doc comment
starts with "Modelled from the spec:".
-/

namespace OclStream

/-! ## Handles and status codes -/

/-- Modelled from the spec: the status codes of `common/c_types_map.hpp`, which
section 6 lists as Success, OutOfMemory, InvalidArguments and RuntimeError. -/
inductive status_t where
  | success
  | out_of_memory
  | invalid_arguments
  | runtime_error
  deriving DecidableEq, Repr

/-- OpenCL error code. -/
abbrev cl_int := Int

/-- The OpenCL code for success. -/
def CL_SUCCESS : cl_int := 0

/-- Native queue handle; `0` is the null handle. -/
abbrev cl_command_queue := Nat

/-- Native event handle. -/
abbrev cl_event := Nat

/-- Engine handle. -/
abbrev engine_t := Nat

/-- Identifier of the calling thread. -/
abbrev thread_id := Nat

/-- The kind of profiling data asked for. -/
abbrev profiling_data_kind_t := Nat

/-! ## The world outside the stream -/

/-- A call made on a collaborator of the stream, or a store through the
`stream` out-pointer of `create_stream`. -/
inductive Call where
  | alloc
  | init
  | init_flags (queue : cl_command_queue)
  | clCreateCommandQueue (engine : engine_t) (flags : Nat)
  | store
  | clFinish (queue : cl_command_queue)
  | clReleaseCommandQueue (queue : cl_command_queue)
  | profiler_reset
  | profiler_get_info (data_kind : profiling_data_kind_t)
  | before_exec_hook
  | after_exec_hook
  | enqueue (wait_list : List cl_event)
  deriving DecidableEq, Repr

/-- Modelled from the spec: `ocl_context_t` of `gpu/intel/ocl/ocl_context.hpp`,
section 2: "thread-local bookkeeping holding the current frontier of pending
dependency events". -/
structure ocl_context_t where
  events_ : List cl_event
  deriving DecidableEq, Repr

/-- The frontier held by a context. -/
def ocl_context_t.get_deps (c : ocl_context_t) : List cl_event :=
  c.events_

/-- Replace the frontier held by a context. -/
def ocl_context_t.set_deps (_c : ocl_context_t) (deps : List cl_event) :
    ocl_context_t :=
  { events_ := deps }

/-- The value `{}` with which `static ocl_context_t empty_ctx {}` starts: a
context without events. -/
def empty_ctx : ocl_context_t :=
  { events_ := [] }

/-- The world outside the stream.  The device layer as a mock: the reference
count of every queue, the next unused event handle, the events handed out
already satisfied, and the calls made so far, oldest first.  And the one
static object of the header, the `empty_ctx` of `ocl_ctx()`. -/
structure Device where
  refcount : cl_command_queue → Nat
  next_event : cl_event
  satisfied : List cl_event
  static_empty_ctx : ocl_context_t
  calls : List Call

/-- Append one call to the log. -/
def Device.call (d : Device) (c : Call) : Device :=
  { d with calls := d.calls ++ [c] }

/-- What the collaborators answer.  Every answer may depend on the device
state, hence on the whole history of calls. -/
structure Runtime where
  /-- the bit `stream_flags::profiling` of the flag mask -/
  profiling : Nat
  /-- whether `new ocl_stream_t(...)` yields an object -/
  alloc_ok : Device → Bool
  /-- the value an uninitialised `queue_` member holds -/
  indeterminate : cl_command_queue
  /-- the code `clFinish` reports -/
  clFinish : Device → cl_command_queue → cl_int
  /-- the outcome of `xpu::ocl::stream_impl_t::init_flags` -/
  init_flags : Device → cl_command_queue → status_t × Nat
  /-- the outcome of `create_queue`: error code and handle -/
  create_queue : Device → engine_t → Nat → cl_int × cl_command_queue
  /-- whether the hardware counter bridge can be built -/
  mdapi_ok : Device → Bool
  /-- the code an enqueue reports -/
  enqueue : Device → cl_int
  /-- the duration the device reports for an operation, per data kind -/
  duration : Device → profiling_data_kind_t → Nat

/-- `clReleaseCommandQueue` on the mock device: one reference less. -/
def clReleaseCommandQueue (queue : cl_command_queue) (d : Device) : Device :=
  { d with
    refcount := Function.update d.refcount queue (d.refcount queue - 1)
    calls := d.calls ++ [Call.clReleaseCommandQueue queue] }

/-- `clFinish` on the mock device: the drain is logged and its code reported. -/
def clFinish (rt : Runtime) (queue : cl_command_queue) (d : Device) :
    cl_int × Device :=
  (rt.clFinish d queue, d.call (Call.clFinish queue))

/-! ## Checking macros -/

/-- Modelled from the spec: the macro `CHECK` of `common/utils.hpp`.  Section 7:
"all errors propagate immediately to the caller"; the first `create_stream`
spells the same test out.  `some st` means "return `st` now". -/
def CHECK (f : status_t) : Option status_t :=
  if f ≠ status_t.success then some f else none

/-- Modelled from the spec: the macro `OCL_CHECK` of `gpu/intel/ocl/ocl_utils.hpp`.
Section 7 classes device failures ("queue creation failure, synchronization
failure, failed enqueue") as `RuntimeError`, and section 4.1 gives `wait` the
results Success and RuntimeError only.  `some st` means "return `st` now". -/
def OCL_CHECK (x : cl_int) : Option status_t :=
  if x ≠ CL_SUCCESS then some status_t.runtime_error else none

/-! ## Profiler, context, thread local storage -/

/-- Modelled from the spec: `xpu::stream_profiler_t`, section 3: a "mapping
from profiling-data-kind to an ordered sequence of numeric samples". -/
structure stream_profiler_t where
  samples : profiling_data_kind_t → List Nat

/-- Modelled from the spec: `stream_profiler_t::reset`, section 4.3: "clears
all accumulated samples". -/
def stream_profiler_t.reset (_p : stream_profiler_t) : stream_profiler_t :=
  { samples := fun _ => [] }

/-- Modelled from the spec: `stream_profiler_t::get_info`, sections 4.1 and
4.3: "fills `out_buffer` with up to `out_count` samples of the requested kind
and reports how many were written"; it "does not clear them".  The result is
the status, the new value of `*num_entries` and the new buffer. -/
def stream_profiler_t.get_info (p : stream_profiler_t)
    (data_kind : profiling_data_kind_t) (num_entries : Int) (data : List Nat) :
    status_t × Int × List Nat :=
  let written := (p.samples data_kind).take num_entries.toNat
  (status_t.success, (written.length : Int), written ++ data.drop written.length)

/-- Modelled from the spec: recording one sample per data kind, section 4.3:
"every dispatched operation, when profiling is enabled, appends one timing
sample (duration, in device clock units, per data kind)". -/
def stream_profiler_t.record (p : stream_profiler_t)
    (duration : profiling_data_kind_t → Nat) : stream_profiler_t :=
  { samples := fun k => p.samples k ++ [duration k] }

/-- Modelled from the spec: `utils::thread_local_storage_t<T>`, section 3: "one
instance per (Stream, thread) pair, created lazily on first use by that
thread".  A thread without an instance maps to `none`. -/
abbrev thread_local_storage_t (T : Type) := thread_id → Option T

/-- The object a reference handed out by `thread_local_storage_t::get`
designates: the `ifnotfound` object of the caller, or the instance of a
thread in the storage. -/
inductive ref_t where
  | ifnotfound
  | instance_of (tid : thread_id)
  deriving DecidableEq, Repr

/-- Modelled from the spec: `thread_local_storage_t::get(ifnotfound)` called on
thread `tid`, section 3: "one instance per (Stream, thread) pair, created
lazily on first use by that thread".  The result is a reference to the
instance of that thread, which is created as a copy of `ifnotfound` when the
thread has none yet. -/
def thread_local_storage_t.get {T : Type} (st : thread_local_storage_t T)
    (tid : thread_id) (ifnotfound : T) : ref_t × thread_local_storage_t T :=
  match st tid with
  | some _ => (ref_t.instance_of tid, st)
  | none => (ref_t.instance_of tid, Function.update st tid (some ifnotfound))

/-- The hardware counter bridge; it has no state of interest here. -/
structure mdapi_helper_t where
  deriving DecidableEq, Repr

/-! ## The stream -/

/-- The members of `ocl_stream_t`: the engine, flags and queue handed to the
base class and its `stream_impl_t`, the inherited profiler, and the three
members the header declares. -/
structure ocl_stream_t where
  engine : engine_t
  flags : Nat
  impl_queue : cl_command_queue
  profiler_ : Option stream_profiler_t
  queue_ : cl_command_queue
  mdapi_helper_ : Option mdapi_helper_t
  ctx_ : thread_local_storage_t ocl_context_t

/-- The constructor `ocl_stream_t(engine, flags)`.  It builds the base class
from `new stream_impl_t(flags)` and names no member, so `queue_` holds an
indeterminate value and the smart pointers are null. -/
def ocl_stream_t.ctor (rt : Runtime) (engine : engine_t) (flags : Nat) :
    ocl_stream_t :=
  { engine := engine
    flags := flags
    impl_queue := 0
    profiler_ := none
    queue_ := rt.indeterminate
    mdapi_helper_ := none
    ctx_ := fun _ => none }

/-- The constructor `ocl_stream_t(engine, flags, queue)`: as the other one,
with `new stream_impl_t(queue, flags)`. -/
def ocl_stream_t.ctor_queue (rt : Runtime) (engine : engine_t) (flags : Nat)
    (queue : cl_command_queue) : ocl_stream_t :=
  { engine := engine
    flags := flags
    impl_queue := queue
    profiler_ := none
    queue_ := rt.indeterminate
    mdapi_helper_ := none
    ctx_ := fun _ => none }

/-- Modelled from the spec: the inherited `is_profiling_enabled()`, section 2:
the profiler is "active only if profiling was requested at stream creation",
that is, when the profiling bit of the creation flags is set. -/
def is_profiling_enabled (rt : Runtime) (s : ocl_stream_t) : Bool :=
  s.flags &&& rt.profiling != 0

/-- The destructor `~ocl_stream_t()`. -/
def ocl_stream_t.destructor (s : ocl_stream_t) (d : Device) : Device :=
  if s.queue_ ≠ 0 then clReleaseCommandQueue s.queue_ d else d

/-- The type of `ocl_stream_t::init()`: status, initialised stream, device. -/
abbrev init_t := ocl_stream_t → Device → status_t × ocl_stream_t × Device

/-- The overload `create_stream(stream, engine, flags)`.  `stream` is the value
behind the out-pointer before the call; the result is the status, the value
behind the out-pointer after the call, and the device.  `init` is declared in
the header and defined elsewhere, so it is an argument.  When a path returns
without `release()`, the `unique_ptr` destroys the object it holds. -/
def create_stream (rt : Runtime) (init : init_t) (stream : Option ocl_stream_t)
    (engine : engine_t) (flags : Nat) (d : Device) :
    status_t × Option ocl_stream_t × Device :=
  let d1 := d.call Call.alloc
  if !rt.alloc_ok d then (status_t.out_of_memory, stream, d1)
  else
    let ocl_stream := ocl_stream_t.ctor rt engine flags
    let r := init ocl_stream (d1.call Call.init)
    if r.1 ≠ status_t.success then (r.1, stream, r.2.1.destructor r.2.2)
    else (status_t.success, some r.2.1, r.2.2.call Call.store)

/-- The overload `create_stream(stream, engine, queue)`. -/
def create_stream_queue (rt : Runtime) (init : init_t)
    (stream : Option ocl_stream_t) (engine : engine_t)
    (queue : cl_command_queue) (d : Device) :
    status_t × Option ocl_stream_t × Device :=
  let f := rt.init_flags d queue
  let d0 := d.call (Call.init_flags queue)
  match CHECK f.1 with
  | some st => (st, stream, d0)
  | none =>
    let d1 := d0.call Call.alloc
    if !rt.alloc_ok d0 then (status_t.out_of_memory, stream, d1)
    else
      let ocl_stream := ocl_stream_t.ctor_queue rt engine f.2 queue
      let r := init ocl_stream (d1.call Call.init)
      match CHECK r.1 with
      | some st => (st, stream, r.2.1.destructor r.2.2)
      | none => (status_t.success, some r.2.1, r.2.2.call Call.store)

/-- The method `wait()`. -/
def wait (rt : Runtime) (s : ocl_stream_t) (d : Device) :
    status_t × ocl_stream_t × Device :=
  let r := clFinish rt s.queue_ d
  match OCL_CHECK r.1 with
  | some st => (st, s, r.2)
  | none => (status_t.success, s, r.2)

/-- The method `reset_profiling()`.  `none` is the dereference of a null
`profiler_`. -/
def reset_profiling (rt : Runtime) (s : ocl_stream_t) (d : Device) :
    Option (status_t × ocl_stream_t × Device) :=
  if !is_profiling_enabled rt s then some (status_t.invalid_arguments, s, d)
  else
    match s.profiler_ with
    | none => none
    | some p =>
      some (status_t.success, { s with profiler_ := some p.reset },
        d.call Call.profiler_reset)

/-- The method `get_profiling_data(data_kind, num_entries, data)`.  The result
is the status, the values of `*num_entries` and of the buffer after the call,
and the device; `none` is the dereference of a null `profiler_`. -/
def get_profiling_data (rt : Runtime) (s : ocl_stream_t)
    (data_kind : profiling_data_kind_t) (num_entries : Int) (data : List Nat)
    (d : Device) : Option (status_t × Int × List Nat × Device) :=
  if !is_profiling_enabled rt s then
    some (status_t.invalid_arguments, num_entries, data, d)
  else
    match s.profiler_ with
    | none => none
    | some p =>
      let r := p.get_info data_kind num_entries data
      some (r.1, r.2.1, r.2.2, d.call (Call.profiler_get_info data_kind))

/-- The accessor `queue()`. -/
def queue (s : ocl_stream_t) : cl_command_queue :=
  s.queue_

/-- The context a reference designates.  For `ocl_ctx()` the `ifnotfound`
object is the static `empty_ctx`.  The storage hands out a reference to an
instance only once the instance exists; the other case reads as the static. -/
def ref_t.read (r : ref_t) (s : ocl_stream_t) (d : Device) : ocl_context_t :=
  match r with
  | ref_t.ifnotfound => d.static_empty_ctx
  | ref_t.instance_of tid => (s.ctx_ tid).getD d.static_empty_ctx

/-- A store through a reference: it changes the object the reference
designates, the static or the instance of a thread, and nothing else. -/
def ref_t.write (r : ref_t) (c : ocl_context_t) (s : ocl_stream_t) (d : Device) :
    ocl_stream_t × Device :=
  match r with
  | ref_t.ifnotfound => (s, { d with static_empty_ctx := c })
  | ref_t.instance_of tid =>
    ({ s with ctx_ := Function.update s.ctx_ tid (some c) }, d)

/-- The method `ocl_ctx()` called on thread `tid`: the reference `ctx_.get`
gives for the static `empty_ctx`, and the stream, whose storage is `mutable`
and may have gained an instance.  The overload that is not `const` casts the
`const` away from the same reference. -/
def ocl_ctx (tid : thread_id) (s : ocl_stream_t) (d : Device) :
    ref_t × ocl_stream_t :=
  let r := thread_local_storage_t.get s.ctx_ tid d.static_empty_ctx
  (r.1, { s with ctx_ := r.2 })

/-- The method `ctx()`. -/
def ctx (tid : thread_id) (s : ocl_stream_t) (d : Device) : ref_t × ocl_stream_t :=
  ocl_ctx tid s d

/-- The expression `ctx().get_deps()` evaluated on thread `tid`, which section
4.2 calls `get_current_deps()`: the frontier the calling thread reads. -/
def get_current_deps (tid : thread_id) (s : ocl_stream_t) (d : Device) :
    List cl_event :=
  let r := ctx tid s d
  (r.1.read r.2 d).get_deps

/-- The method `get_output_event()` called on thread `tid`.  `none` is the
failure of `assert(deps.size() == 1)`. -/
def get_output_event (tid : thread_id) (s : ocl_stream_t) (d : Device) :
    Option cl_event × ocl_stream_t :=
  let r := ctx tid s d
  let deps := (r.1.read r.2 d).get_deps
  if deps.length = 1 then (deps[0]?, r.2) else (none, r.2)

/-! ## Collaborators defined outside the header -/

/-- Modelled from the spec: the part of `ocl_stream_t::init()` that, in the
words of section 4.1, "initializes profiling/counter bridges according to
`flags`".  Section 2: the profiler is "active only if profiling was requested
at stream creation"; section 4.4: a failure to build the counter bridge "must
not fail Stream creation — it degrades to extended metrics unavailable". -/
def init_bridges (rt : Runtime) (s : ocl_stream_t) (d : Device) : ocl_stream_t :=
  if is_profiling_enabled rt s then
    { s with
      profiler_ := some { samples := fun _ => [] }
      mdapi_helper_ := if rt.mdapi_ok d then some {} else none }
  else s

/-- Modelled from the spec: `ocl_stream_t::init()`, which the header declares
and `create_stream` calls.  Section 4.1: creation "constructs its Queue Handle
from the engine, and initializes profiling/counter bridges according to
`flags`", and fails "with RuntimeError if device-side queue creation fails";
section 2: the queue is "created either fresh from an engine+flags pair or
adopted from an externally supplied queue". -/
def init (rt : Runtime) : init_t := fun s d =>
  let s1 := init_bridges rt s d
  if s1.impl_queue ≠ 0 then
    (status_t.success, { s1 with queue_ := s1.impl_queue }, d)
  else
    let r := rt.create_queue d s1.engine s1.flags
    let d1 := d.call (Call.clCreateCommandQueue s1.engine s1.flags)
    match OCL_CHECK r.1 with
    | some st => (st, s1, d1)
    | none =>
      (status_t.success, { s1 with queue_ := r.2 },
        { d1 with refcount := Function.update d1.refcount r.2 1 })

/-- Modelled from the spec: `set_current_deps(event)` of section 4.2, "called
after every successful submission to record the new frontier": a store
through the reference `ctx()` gives on thread `tid`. -/
def set_current_deps (tid : thread_id) (event : cl_event) (s : ocl_stream_t)
    (d : Device) : ocl_stream_t × Device :=
  let r := ctx tid s d
  r.1.write ((r.1.read r.2 d).set_deps [event]) r.2 d

/-- Handle of a memory storage. -/
abbrev memory_storage_t := Nat

/-- Modelled from the spec: what `copy` and `fill`, both only declared in the
header, have in common.  Section 2: "Each asynchronous operation reads the
issuing thread's current Execution Context to discover its input
dependencies, submits work to the Queue Handle, produces a new Dependency
Event, and writes that event back into the Execution Context"; section 4.1:
"A `size` of zero is a valid no-op that still yields a trivially-satisfied
Dependency Event", and the hooks "bracket a dispatched operation"; section 8:
an operation "with `size == 0` always succeeds and returns an
already-satisfied Dependency Event"; section 7: a failed enqueue is a
`RuntimeError`.  So a size of zero dispatches nothing, calls neither hook nor
the queue, and hands out a new event that is satisfied already; that event is
written back like any other, as by section 8 the frontier "equals the most
recently returned out-event".  The result is the status, the value of
`out_dep` after the call, the stream and the device. -/
def submit (rt : Runtime) (tid : thread_id) (size : Nat) (deps : List cl_event)
    (out_dep : List cl_event) (s : ocl_stream_t) (d : Device) :
    status_t × List cl_event × ocl_stream_t × Device :=
  let c := ctx tid s d
  if size = 0 then
    let e := d.next_event
    let w := set_current_deps tid e c.2
      { d with next_event := e + 1, satisfied := d.satisfied ++ [e] }
    (status_t.success, [e], w.1, w.2)
  else
    let d1 := d.call Call.before_exec_hook
    let err := rt.enqueue d1
    let d2 := (d1.call (Call.enqueue deps)).call Call.after_exec_hook
    match OCL_CHECK err with
    | some st => (st, out_dep, c.2, d2)
    | none =>
      let e := d2.next_event
      let s1 : ocl_stream_t :=
        if is_profiling_enabled rt c.2 then
          { c.2 with
            profiler_ := c.2.profiler_.map fun p => p.record (rt.duration d1) }
        else c.2
      let w := set_current_deps tid e s1 { d2 with next_event := e + 1 }
      (status_t.success, [e], w.1, w.2)

/-- Modelled from the spec: `copy(src, dst, size, deps, out_dep)` called on
thread `tid`, section 4.1. -/
def copy (rt : Runtime) (tid : thread_id) (_src _dst : memory_storage_t)
    (size : Nat) (deps : List cl_event) (out_dep : List cl_event)
    (s : ocl_stream_t) (d : Device) :
    status_t × List cl_event × ocl_stream_t × Device :=
  submit rt tid size deps out_dep s d

/-- Modelled from the spec: `fill(dst, pattern, size, deps, out_dep)` called on
thread `tid`, section 4.1: "same contract as `copy`". -/
def fill (rt : Runtime) (tid : thread_id) (_dst : memory_storage_t)
    (_pattern : Nat) (size : Nat) (deps : List cl_event)
    (out_dep : List cl_event) (s : ocl_stream_t) (d : Device) :
    status_t × List cl_event × ocl_stream_t × Device :=
  submit rt tid size deps out_dep s d

/-- One memory operation with its arguments. -/
inductive Op where
  | copy (src dst : memory_storage_t) (size : Nat) (deps : List cl_event)
  | fill (dst : memory_storage_t) (pattern : Nat) (size : Nat)
      (deps : List cl_event)
  deriving DecidableEq, Repr

/-- The byte count of an operation. -/
def Op.size : Op → Nat
  | Op.copy _ _ size _ => size
  | Op.fill _ _ size _ => size

/-- Issue one operation on thread `tid`. -/
def Op.issue (rt : Runtime) (tid : thread_id) (op : Op)
    (out_dep : List cl_event) (s : ocl_stream_t) (d : Device) :
    status_t × List cl_event × ocl_stream_t × Device :=
  match op with
  | Op.copy src dst size deps => OclStream.copy rt tid src dst size deps out_dep s d
  | Op.fill dst pattern size deps =>
    OclStream.fill rt tid dst pattern size deps out_dep s d

/-- Issue a sequence of operations on thread `tid`, one after the other,
whatever their statuses; the result is the state after the last one. -/
def issue_all (rt : Runtime) (tid : thread_id) :
    List Op → List cl_event × ocl_stream_t × Device →
    List cl_event × ocl_stream_t × Device
  | [], st => st
  | op :: ops, st => issue_all rt tid ops (op.issue rt tid st.1 st.2.1 st.2.2).2

/-- Issue the operations `ops` on thread `tid` and then `op`; the result is
what `op` returns. -/
def issue_last (rt : Runtime) (tid : thread_id) (ops : List Op) (op : Op)
    (st : List cl_event × ocl_stream_t × Device) :
    status_t × List cl_event × ocl_stream_t × Device :=
  op.issue rt tid (issue_all rt tid ops st).1 (issue_all rt tid ops st).2.1
    (issue_all rt tid ops st).2.2

/-- One call on a stream by some thread: a copy or fill, `get_output_event`,
or `wait`. -/
inductive Step where
  | issue (tid : thread_id) (op : Op)
  | get_output_event (tid : thread_id)
  | wait (tid : thread_id)
  deriving DecidableEq, Repr

/-- The stream and the device after one call. -/
def Step.run (rt : Runtime) (st : Step) (x : ocl_stream_t × Device) :
    ocl_stream_t × Device :=
  match st with
  | Step.issue tid op => (op.issue rt tid [] x.1 x.2).2.2
  | Step.get_output_event tid => ((OclStream.get_output_event tid x.1 x.2).2, x.2)
  | Step.wait _ => (OclStream.wait rt x.1 x.2).2

/-- The stream and the device after a sequence of calls. -/
def run_steps (rt : Runtime) :
    List Step → ocl_stream_t × Device → ocl_stream_t × Device
  | [], x => x
  | st :: rest, x => run_steps rt rest (st.run rt x)

/-- Whether the call is a copy or fill of thread `tid` that returns
`success`. -/
def Step.submits (rt : Runtime) (tid : thread_id) (st : Step)
    (x : ocl_stream_t × Device) : Bool :=
  match st with
  | Step.issue t op =>
    decide (t = tid) && decide ((op.issue rt t [] x.1 x.2).1 = status_t.success)
  | _ => false

/-- Whether, in the sequence of calls, some copy or fill of thread `tid`
returns `success`. -/
def has_submitted (rt : Runtime) (tid : thread_id) :
    List Step → ocl_stream_t × Device → Bool
  | [], _ => false
  | st :: rest, x => st.submits rt tid x || has_submitted rt tid rest (st.run rt x)

/-! ## Concrete inputs -/

/-- A device on which nothing has happened yet and queue 7 has one reference. -/
def device0 : Device :=
  { refcount := fun q => if q = 7 then 1 else 0
    next_event := 100
    satisfied := []
    static_empty_ctx := empty_ctx
    calls := [] }

/-- A runtime on which every collaborator succeeds; new queues get handle 7. -/
def runtime0 : Runtime :=
  { profiling := 4
    alloc_ok := fun _ => true
    indeterminate := 0
    clFinish := fun _ _ => CL_SUCCESS
    init_flags := fun _ _ => (status_t.success, 4)
    create_queue := fun _ _ _ => (CL_SUCCESS, 7)
    mdapi_ok := fun _ => false
    enqueue := fun _ => CL_SUCCESS
    duration := fun _ _ => 1 }

/-- A runtime on which queue creation, the drain and every enqueue fail with
code -5. -/
def runtime_failing : Runtime :=
  { runtime0 with
    clFinish := fun _ _ => -5
    create_queue := fun _ _ _ => (-5, 0)
    enqueue := fun _ => -5 }

/-- A stream without profiling that owns queue 7. -/
def stream_plain : ocl_stream_t :=
  { engine := 1
    flags := 0
    impl_queue := 0
    profiler_ := none
    queue_ := 7
    mdapi_helper_ := none
    ctx_ := fun _ => none }

/-- A stream with profiling that owns queue 7 and has samples of kind 0. -/
def stream_profiled : ocl_stream_t :=
  { stream_plain with
    flags := 4
    profiler_ := some { samples := fun k => if k = 0 then [11, 12, 13] else [] } }

/-! ## Profiling control -/

/-- C1: on a stream whose profiling flag is not enabled, `reset_profiling`
returns `invalid_arguments`, and `get_profiling_data` returns
`invalid_arguments` for every data kind, every `num_entries` and every buffer;
both leave the stream (its profiler included), the device with its call log,
`num_entries` and the buffer as they were, so the profiler is not called. -/
theorem profiling_disabled_invalid_arguments (rt : Runtime) (s : ocl_stream_t)
    (d : Device) (h : is_profiling_enabled rt s = false) :
    reset_profiling rt s d = some (status_t.invalid_arguments, s, d) ∧
    ∀ (data_kind : profiling_data_kind_t) (num_entries : Int) (data : List Nat),
      get_profiling_data rt s data_kind num_entries data d
        = some (status_t.invalid_arguments, num_entries, data, d) := by
  constructor
  · simp [reset_profiling, h]
  · intro data_kind num_entries data
    simp [get_profiling_data, h]

/-- Witness of C1: the stream without profiling on the concrete device. -/
theorem profiling_disabled_invalid_arguments_witness :
    is_profiling_enabled runtime0 stream_plain = false ∧
    (reset_profiling runtime0 stream_plain device0
        = some (status_t.invalid_arguments, stream_plain, device0) ∧
      ∀ (data_kind : profiling_data_kind_t) (num_entries : Int) (data : List Nat),
        get_profiling_data runtime0 stream_plain data_kind num_entries data device0
          = some (status_t.invalid_arguments, num_entries, data, device0)) :=
  ⟨by decide, profiling_disabled_invalid_arguments runtime0 stream_plain device0
    (by decide)⟩

/-- C2: on a profiling-enabled stream, whatever samples its profiler `p` holds,
`reset_profiling` returns `success`, and `get_profiling_data` called right
after it returns `success` and reports zero samples for every data kind,
whatever the capacity and the buffer, which it leaves as it was. -/
theorem reset_profiling_then_get_reports_zero (rt : Runtime) (s : ocl_stream_t)
    (d : Device) (p : stream_profiler_t)
    (h : is_profiling_enabled rt s = true) (hp : s.profiler_ = some p) :
    ∃ s1 d1, reset_profiling rt s d = some (status_t.success, s1, d1) ∧
      ∀ (data_kind : profiling_data_kind_t) (num_entries : Int) (data : List Nat),
        get_profiling_data rt s1 data_kind num_entries data d1
          = some (status_t.success, 0, data,
              d1.call (Call.profiler_get_info data_kind)) := by
  refine ⟨{ s with profiler_ := some p.reset }, d.call Call.profiler_reset, ?_, ?_⟩
  · simp [reset_profiling, h, hp]
  · intro data_kind num_entries data
    simp [get_profiling_data, stream_profiler_t.get_info, stream_profiler_t.reset]
    exact h

/-- Witness of C2: the profiled stream, which holds three samples of kind 0. -/
theorem reset_profiling_then_get_reports_zero_witness :
    is_profiling_enabled runtime0 stream_profiled = true ∧
    ∃ s1 d1, reset_profiling runtime0 stream_profiled device0
        = some (status_t.success, s1, d1) ∧
      ∀ (data_kind : profiling_data_kind_t) (num_entries : Int) (data : List Nat),
        get_profiling_data runtime0 s1 data_kind num_entries data d1
          = some (status_t.success, 0, data,
              d1.call (Call.profiler_get_info data_kind)) :=
  ⟨by decide, reset_profiling_then_get_reports_zero runtime0 stream_profiled device0
    { samples := fun k => if k = 0 then [11, 12, 13] else [] } (by decide) rfl⟩

/-! ## Synchronisation and destruction -/

/-- C5: `wait()` returns `success` exactly when the drain of the stream's queue
reports `CL_SUCCESS` and `runtime_error` for every other code; it returns no
other status, leaves the stream as it was, and makes the one drain call. -/
theorem wait_status (rt : Runtime) (s : ocl_stream_t) (d : Device) :
    ((wait rt s d).1 = status_t.success ↔ rt.clFinish d s.queue_ = CL_SUCCESS) ∧
    (rt.clFinish d s.queue_ ≠ CL_SUCCESS →
      (wait rt s d).1 = status_t.runtime_error) ∧
    ((wait rt s d).1 = status_t.success ∨
      (wait rt s d).1 = status_t.runtime_error) ∧
    (wait rt s d).2.1 = s ∧
    (wait rt s d).2.2 = d.call (Call.clFinish s.queue_) := by
  by_cases hc : rt.clFinish d s.queue_ = CL_SUCCESS
  · simp [wait, clFinish, OCL_CHECK, hc]
  · simp [wait, clFinish, OCL_CHECK, hc]

/-- Witness of C5: a drain that succeeds and a drain that reports -5. -/
theorem wait_status_witness :
    (wait runtime0 stream_plain device0).1 = status_t.success ∧
    (wait runtime_failing stream_plain device0).1 = status_t.runtime_error :=
  ⟨(wait_status runtime0 stream_plain device0).1.2 rfl,
    (wait_status runtime_failing stream_plain device0).2.1 (by decide)⟩

/-- C6: with a non-null queue handle the destructor makes exactly one release
call on that handle and no other call, a drain in particular; the reference
count of that queue goes down by one, from 1 to 0 on a mock device that held
one reference, and no other count changes.  With a null handle the destructor
does nothing. -/
theorem destructor_releases_once (s : ocl_stream_t) (d : Device) :
    (s.queue_ ≠ 0 →
      (s.destructor d).calls = d.calls ++ [Call.clReleaseCommandQueue s.queue_] ∧
      (s.destructor d).refcount s.queue_ = d.refcount s.queue_ - 1 ∧
      (d.refcount s.queue_ = 1 → (s.destructor d).refcount s.queue_ = 0) ∧
      ∀ q, q ≠ s.queue_ → (s.destructor d).refcount q = d.refcount q) ∧
    (s.queue_ = 0 → s.destructor d = d) := by
  constructor
  · intro hq
    refine ⟨?_, ?_, ?_, ?_⟩
    · simp [ocl_stream_t.destructor, hq, clReleaseCommandQueue]
    · simp [ocl_stream_t.destructor, hq, clReleaseCommandQueue]
    · intro h1
      simp [ocl_stream_t.destructor, hq, clReleaseCommandQueue, h1]
    · intro q hne
      simp [ocl_stream_t.destructor, hq, clReleaseCommandQueue, Function.update, hne]
  · intro hq
    simp [ocl_stream_t.destructor, hq]

/-- Witness of C6: destroying the stream that owns queue 7, whose count is 1,
logs one release of queue 7 and leaves the count at 0. -/
theorem destructor_releases_once_witness :
    (stream_plain.destructor device0).calls = [Call.clReleaseCommandQueue 7] ∧
    (stream_plain.destructor device0).refcount 7 = 0 :=
  ⟨((destructor_releases_once stream_plain device0).1 (by decide)).1,
    ((destructor_releases_once stream_plain device0).1 (by decide)).2.2.1 rfl⟩

/-! ## Creation -/

/-- Building the bridges changes neither engine, flags nor queues. -/
theorem init_bridges_fields (rt : Runtime) (s : ocl_stream_t) (d : Device) :
    (init_bridges rt s d).engine = s.engine ∧
    (init_bridges rt s d).flags = s.flags ∧
    (init_bridges rt s d).impl_queue = s.impl_queue ∧
    (init_bridges rt s d).queue_ = s.queue_ ∧
    (init_bridges rt s d).ctx_ = s.ctx_ := by
  unfold init_bridges
  split <;> simp

/-- The status of `init` when it has to create the queue and that fails. -/
theorem init_create_fails (rt : Runtime) (s : ocl_stream_t) (d : Device)
    (h0 : s.impl_queue = 0)
    (hq : (rt.create_queue d s.engine s.flags).1 ≠ CL_SUCCESS) :
    init rt s d = (status_t.runtime_error, init_bridges rt s d,
      d.call (Call.clCreateCommandQueue s.engine s.flags)) := by
  obtain ⟨he, hf, hi, -, -⟩ := init_bridges_fields rt s d
  simp [init, he, hf, hi, h0, OCL_CHECK, hq]

/-- The result of `init` when it has to create the queue and that succeeds. -/
theorem init_create_succeeds (rt : Runtime) (s : ocl_stream_t) (d : Device)
    (h0 : s.impl_queue = 0)
    (hq : (rt.create_queue d s.engine s.flags).1 = CL_SUCCESS) :
    init rt s d = (status_t.success,
      { init_bridges rt s d with queue_ := (rt.create_queue d s.engine s.flags).2 },
      { d.call (Call.clCreateCommandQueue s.engine s.flags) with
        refcount := Function.update d.refcount
          (rt.create_queue d s.engine s.flags).2 1 }) := by
  obtain ⟨he, hf, hi, -, -⟩ := init_bridges_fields rt s d
  simp [init, he, hf, hi, h0, OCL_CHECK, hq, Device.call]

/-- The result of `init` when the stream was given a queue. -/
theorem init_adopts (rt : Runtime) (s : ocl_stream_t) (d : Device)
    (h0 : s.impl_queue ≠ 0) :
    init rt s d = (status_t.success,
      { init_bridges rt s d with queue_ := s.impl_queue }, d) := by
  obtain ⟨-, -, hi, -, -⟩ := init_bridges_fields rt s d
  simp [init, hi, h0]

/-- A profiling-enabled stream that `create_stream` built holds a profiler, so
`reset_profiling` and `get_profiling_data` do not meet a null pointer on it. -/
theorem create_stream_gives_profiler (rt : Runtime)
    (stream : Option ocl_stream_t) (engine : engine_t) (flags : Nat)
    (d d1 : Device) (s : ocl_stream_t)
    (h : create_stream rt (init rt) stream engine flags d
      = (status_t.success, some s, d1))
    (hp : is_profiling_enabled rt s = true) : ∃ p, s.profiler_ = some p := by
  have ha : rt.alloc_ok d = true := by
    by_contra hne
    simp [create_stream, hne] at h
  by_cases hq : (rt.create_queue ((d.call Call.alloc).call Call.init) engine
      flags).1 = CL_SUCCESS
  · have hok := init_create_succeeds rt (ocl_stream_t.ctor rt engine flags)
      ((d.call Call.alloc).call Call.init) rfl hq
    simp [create_stream, ha, hok] at h
    obtain ⟨hs, -⟩ := h
    subst hs
    have hp1 : is_profiling_enabled rt (ocl_stream_t.ctor rt engine flags)
        = true := by
      have hf := (init_bridges_fields rt (ocl_stream_t.ctor rt engine flags)
        ((d.call Call.alloc).call Call.init)).2.1
      simp only [is_profiling_enabled] at hp ⊢
      rw [← hf]
      exact hp
    simp [init_bridges, hp1]
  · have hfail := init_create_fails rt (ocl_stream_t.ctor rt engine flags)
      ((d.call Call.alloc).call Call.init) rfl hq
    simp [create_stream, ha, hfail] at h

/-- C3: `create_stream(stream, engine, flags)` returns `out_of_memory` when the
allocation fails, and then only the allocation is logged and the result is the
same whatever `init` is, so `init` is not run; with `init` as the spec has it,
it returns `runtime_error` when queue creation fails and `success` with a new
stream otherwise, and no status but these three. -/
theorem create_stream_statuses (rt : Runtime) (stream : Option ocl_stream_t)
    (engine : engine_t) (flags : Nat) (d : Device) :
    (rt.alloc_ok d = false →
      ∀ i : init_t, create_stream rt i stream engine flags d
        = (status_t.out_of_memory, stream, d.call Call.alloc)) ∧
    (rt.alloc_ok d = true →
      (rt.create_queue ((d.call Call.alloc).call Call.init) engine flags).1
        ≠ CL_SUCCESS →
      (create_stream rt (init rt) stream engine flags d).1
        = status_t.runtime_error) ∧
    (rt.alloc_ok d = true →
      (rt.create_queue ((d.call Call.alloc).call Call.init) engine flags).1
        = CL_SUCCESS →
      ∃ s d1, create_stream rt (init rt) stream engine flags d
        = (status_t.success, some s, d1)) ∧
    ((create_stream rt (init rt) stream engine flags d).1 = status_t.success ∨
      (create_stream rt (init rt) stream engine flags d).1
        = status_t.out_of_memory ∨
      (create_stream rt (init rt) stream engine flags d).1
        = status_t.runtime_error) := by
  have hfail := init_create_fails rt (ocl_stream_t.ctor rt engine flags)
    ((d.call Call.alloc).call Call.init) rfl
  have hok := init_create_succeeds rt (ocl_stream_t.ctor rt engine flags)
    ((d.call Call.alloc).call Call.init) rfl
  refine ⟨?_, ?_, ?_, ?_⟩
  · intro ha i
    simp [create_stream, ha]
  · intro ha hq
    simp [create_stream, ha, hfail hq]
  · intro ha hq
    simp [create_stream, ha, hok hq]
  · by_cases ha : rt.alloc_ok d = true
    · by_cases hq : (rt.create_queue ((d.call Call.alloc).call Call.init) engine
          flags).1 = CL_SUCCESS
      · simp [create_stream, ha, hok hq]
      · simp [create_stream, ha, hfail hq]
    · simp [create_stream, ha]

/-- Witness of C3: a failed queue creation gives `runtime_error`, a successful
one gives `success`. -/
theorem create_stream_statuses_witness :
    (create_stream runtime_failing (init runtime_failing) none 1 0 device0).1
      = status_t.runtime_error ∧
    ∃ s d1, create_stream runtime0 (init runtime0) none 1 0 device0
      = (status_t.success, some s, d1) :=
  ⟨(create_stream_statuses runtime_failing none 1 0 device0).2.1 rfl (by decide),
    (create_stream_statuses runtime0 none 1 0 device0).2.2.1 rfl rfl⟩

/-- C4: when `create_stream(stream, engine, queue)` succeeds for an existing
(non-null) queue, with `init` as the spec has it, then `init_flags` succeeded,
the flags of the new stream are the flags `init_flags` derived from the queue,
the stream holds that queue, and the stream is the one
`create_stream(stream, engine, flags)` builds from the derived flags on the
same device, but for the queue, which is adopted and not created. -/
theorem create_stream_queue_flags (rt : Runtime) (stream : Option ocl_stream_t)
    (engine : engine_t) (queue : cl_command_queue) (d d1 : Device)
    (s : ocl_stream_t) (hqueue : queue ≠ 0)
    (h : create_stream_queue rt (init rt) stream engine queue d
      = (status_t.success, some s, d1)) :
    (rt.init_flags d queue).1 = status_t.success ∧
    s.flags = (rt.init_flags d queue).2 ∧
    s.queue_ = queue ∧
    OclStream.queue s = queue ∧
    ∀ (stream2 : Option ocl_stream_t) (s2 : ocl_stream_t) (d2 : Device),
      create_stream rt (init rt) stream2 engine (rt.init_flags d queue).2
          (d.call (Call.init_flags queue)) = (status_t.success, some s2, d2) →
      s = { s2 with impl_queue := queue, queue_ := queue } := by
  have hadopt := init_adopts rt
    (ocl_stream_t.ctor_queue rt engine (rt.init_flags d queue).2 queue)
    (((d.call (Call.init_flags queue)).call Call.alloc).call Call.init) hqueue
  have hf : (rt.init_flags d queue).1 = status_t.success := by
    by_contra hne
    simp [create_stream_queue, CHECK, hne] at h
  have ha : rt.alloc_ok (d.call (Call.init_flags queue)) = true := by
    by_contra hne
    simp [create_stream_queue, CHECK, hf, hne] at h
  have hs : s = { init_bridges rt
        (ocl_stream_t.ctor_queue rt engine (rt.init_flags d queue).2 queue)
        (((d.call (Call.init_flags queue)).call Call.alloc).call Call.init)
      with queue_ := queue } := by
    simp [create_stream_queue, CHECK, hf, ha, hadopt] at h
    exact h.1.symm
  obtain ⟨-, hfl, hi, -, -⟩ := init_bridges_fields rt
    (ocl_stream_t.ctor_queue rt engine (rt.init_flags d queue).2 queue)
    (((d.call (Call.init_flags queue)).call Call.alloc).call Call.init)
  refine ⟨hf, ?_, ?_, ?_, ?_⟩
  · rw [hs]; exact hfl
  · rw [hs]
  · rw [hs]; rfl
  · intro stream2 s2 d2 h2
    by_cases hc : (rt.create_queue
        (((d.call (Call.init_flags queue)).call Call.alloc).call Call.init)
        engine (rt.init_flags d queue).2).1 = CL_SUCCESS
    · have hok := init_create_succeeds rt
        (ocl_stream_t.ctor rt engine (rt.init_flags d queue).2)
        (((d.call (Call.init_flags queue)).call Call.alloc).call Call.init)
        rfl hc
      simp [create_stream, ha, hok] at h2
      rw [hs, ← h2.1]
      simp [init_bridges, is_profiling_enabled, ocl_stream_t.ctor,
        ocl_stream_t.ctor_queue]
      split <;> simp
    · have hfail := init_create_fails rt
        (ocl_stream_t.ctor rt engine (rt.init_flags d queue).2)
        (((d.call (Call.init_flags queue)).call Call.alloc).call Call.init)
        rfl hc
      simp [create_stream, ha, hfail] at h2

/-- Witness of C4: adopting queue 9 on the concrete device. -/
theorem create_stream_queue_flags_witness :
    ∃ s d1, create_stream_queue runtime0 (init runtime0) none 1 9 device0
        = (status_t.success, some s, d1) ∧
      s.flags = 4 ∧ s.queue_ = 9 :=
  ⟨_, _, rfl,
    (create_stream_queue_flags runtime0 none 1 9 device0 _ _ (by decide) rfl).2.1,
    (create_stream_queue_flags runtime0 none 1 9 device0 _ _ (by decide) rfl).2.2.1⟩

/-- C10: both `create_stream` overloads store through `stream` exactly when
they return `success`, and then once, the stream `init` finished, as their
last step.  When `init_flags` or `init` gives a status other than `success`,
that status is returned as it is and the value behind `stream` stays; after a
failed `init` the stream that was allocated is destroyed, after a failed
allocation or a failed `init_flags` there is none to destroy.  This holds for
every `init`. -/
theorem create_stream_atomic (rt : Runtime) (i : init_t)
    (stream : Option ocl_stream_t) (engine : engine_t) (flags : Nat)
    (queue : cl_command_queue) (d : Device) :
    (rt.alloc_ok d = false →
      create_stream rt i stream engine flags d
        = (status_t.out_of_memory, stream, d.call Call.alloc)) ∧
    (rt.alloc_ok d = true →
      ∀ (st : status_t) (s1 : ocl_stream_t) (d1 : Device),
        i (ocl_stream_t.ctor rt engine flags)
          ((d.call Call.alloc).call Call.init) = (st, s1, d1) →
        (st ≠ status_t.success →
          create_stream rt i stream engine flags d
            = (st, stream, s1.destructor d1)) ∧
        (st = status_t.success →
          create_stream rt i stream engine flags d
            = (status_t.success, some s1, d1.call Call.store))) ∧
    ((rt.init_flags d queue).1 ≠ status_t.success →
      create_stream_queue rt i stream engine queue d
        = ((rt.init_flags d queue).1, stream, d.call (Call.init_flags queue))) ∧
    ((rt.init_flags d queue).1 = status_t.success →
      rt.alloc_ok (d.call (Call.init_flags queue)) = false →
      create_stream_queue rt i stream engine queue d
        = (status_t.out_of_memory, stream,
            (d.call (Call.init_flags queue)).call Call.alloc)) ∧
    ((rt.init_flags d queue).1 = status_t.success →
      rt.alloc_ok (d.call (Call.init_flags queue)) = true →
      ∀ (st : status_t) (s1 : ocl_stream_t) (d1 : Device),
        i (ocl_stream_t.ctor_queue rt engine (rt.init_flags d queue).2 queue)
          (((d.call (Call.init_flags queue)).call Call.alloc).call Call.init)
          = (st, s1, d1) →
        (st ≠ status_t.success →
          create_stream_queue rt i stream engine queue d
            = (st, stream, s1.destructor d1)) ∧
        (st = status_t.success →
          create_stream_queue rt i stream engine queue d
            = (status_t.success, some s1, d1.call Call.store))) ∧
    ((create_stream rt i stream engine flags d).1 ≠ status_t.success →
      (create_stream rt i stream engine flags d).2.1 = stream) ∧
    ((create_stream_queue rt i stream engine queue d).1 ≠ status_t.success →
      (create_stream_queue rt i stream engine queue d).2.1 = stream) := by
  refine ⟨?_, ?_, ?_, ?_, ?_, ?_, ?_⟩
  · intro ha
    simp [create_stream, ha]
  · intro ha st s1 d1 hi
    constructor
    · intro hst
      simp [create_stream, ha, hi, hst]
    · intro hst
      subst hst
      simp [create_stream, ha, hi]
  · intro hf
    simp [create_stream_queue, CHECK, hf]
  · intro hf ha
    simp [create_stream_queue, CHECK, hf, ha]
  · intro hf ha st s1 d1 hi
    constructor
    · intro hst
      simp [create_stream_queue, CHECK, hf, ha, hi, hst]
    · intro hst
      subst hst
      simp [create_stream_queue, CHECK, hf, ha, hi]
  · intro hne
    by_cases ha : rt.alloc_ok d = true
    · by_cases hst : (i (ocl_stream_t.ctor rt engine flags)
          ((d.call Call.alloc).call Call.init)).1 = status_t.success
      · simp [create_stream, ha, hst] at hne
      · simp [create_stream, ha, hst]
    · simp [create_stream, ha]
  · intro hne
    by_cases hf : (rt.init_flags d queue).1 = status_t.success
    · by_cases ha : rt.alloc_ok (d.call (Call.init_flags queue)) = true
      · by_cases hst : (i
            (ocl_stream_t.ctor_queue rt engine (rt.init_flags d queue).2 queue)
            (((d.call (Call.init_flags queue)).call Call.alloc).call Call.init)).1
            = status_t.success
        · simp [create_stream_queue, CHECK, hf, ha, hst] at hne
        · simp [create_stream_queue, CHECK, hf, ha, hst]
      · simp [create_stream_queue, CHECK, hf, ha]
    · simp [create_stream_queue, CHECK, hf]

/-- Witness of C10: `init` fails on queue creation with `runtime_error`; that
status comes back, the value behind `stream` stays, nothing is stored. -/
theorem create_stream_atomic_witness :
    create_stream runtime_failing (init runtime_failing) (some stream_plain) 1 0
        device0
      = (status_t.runtime_error, some stream_plain,
          (ocl_stream_t.ctor runtime_failing 1 0).destructor
            (((device0.call Call.alloc).call Call.init).call
              (Call.clCreateCommandQueue 1 0))) :=
  ((create_stream_atomic runtime_failing (init runtime_failing)
      (some stream_plain) 1 0 0 device0).2.1 rfl status_t.runtime_error _ _ rfl).1
    (by decide)

/-! ## The execution context -/

/-- The reference `ctx()` gives on a thread designates the instance of that
thread. -/
theorem ctx_ref (tid : thread_id) (s : ocl_stream_t) (d : Device) :
    (ctx tid s d).1 = ref_t.instance_of tid := by
  simp only [ctx, ocl_ctx, thread_local_storage_t.get]
  split <;> rfl

/-- After `ctx()` the thread has an instance: the one it had, or a copy of the
static `empty_ctx`. -/
theorem ctx_slot_self (tid : thread_id) (s : ocl_stream_t) (d : Device) :
    (ctx tid s d).2.ctx_ tid = some ((s.ctx_ tid).getD d.static_empty_ctx) := by
  simp only [ctx, ocl_ctx, thread_local_storage_t.get]
  split
  · next c hc => simp [hc]
  · next hc => simp [hc]

/-- Calling `ctx()` on one thread leaves the slot of every other thread. -/
theorem ctx_slot_other (A B : thread_id) (hAB : A ≠ B) (s : ocl_stream_t)
    (d : Device) : (ctx A s d).2.ctx_ B = s.ctx_ B := by
  simp only [ctx, ocl_ctx, thread_local_storage_t.get]
  split
  · rfl
  · simp [Function.update, hAB.symm]

/-- What a thread reads is the content of its slot, or of the static
`empty_ctx` when it has no instance yet. -/
theorem get_current_deps_eq (tid : thread_id) (s : ocl_stream_t) (d : Device) :
    get_current_deps tid s d
      = ((s.ctx_ tid).getD d.static_empty_ctx).events_ := by
  simp [get_current_deps, ctx_ref, ref_t.read, ctx_slot_self,
    ocl_context_t.get_deps]

/-- The method `get_output_event` in terms of what the thread reads. -/
theorem get_output_event_eq (tid : thread_id) (s : ocl_stream_t) (d : Device) :
    (get_output_event tid s d).1
      = if (get_current_deps tid s d).length = 1
        then (get_current_deps tid s d)[0]? else none := by
  simp only [get_output_event, get_current_deps]
  split <;> rfl

/-- After `set_current_deps` the slot of the thread holds the one event, every
other slot and the device are as before. -/
theorem set_current_deps_slots (tid : thread_id) (event : cl_event)
    (s : ocl_stream_t) (d : Device) :
    (set_current_deps tid event s d).1.ctx_ tid = some { events_ := [event] } ∧
    (∀ B, tid ≠ B → (set_current_deps tid event s d).1.ctx_ B = s.ctx_ B) ∧
    (set_current_deps tid event s d).2 = d := by
  refine ⟨?_, ?_, ?_⟩
  · simp [set_current_deps, ctx_ref, ref_t.write, ocl_context_t.set_deps]
  · intro B hB
    have h := ctx_slot_other tid B hB s d
    simp [set_current_deps, ctx_ref, ref_t.write, Function.update, hB.symm, h]
  · simp [set_current_deps, ctx_ref, ref_t.write]

/-- The result of `submit` for a size of zero. -/
theorem submit_eq_zero (rt : Runtime) (tid : thread_id)
    (deps out_dep : List cl_event) (s : ocl_stream_t) (d : Device) :
    submit rt tid 0 deps out_dep s d
      = (status_t.success, [d.next_event],
          set_current_deps tid d.next_event (ctx tid s d).2
            { d with next_event := d.next_event + 1
                     satisfied := d.satisfied ++ [d.next_event] }) := by
  simp [submit]

/-- The result of `submit` when the enqueue fails. -/
theorem submit_eq_fail (rt : Runtime) (tid : thread_id) (size : Nat)
    (deps out_dep : List cl_event) (s : ocl_stream_t) (d : Device)
    (hz : size ≠ 0)
    (hc : rt.enqueue (d.call Call.before_exec_hook) ≠ CL_SUCCESS) :
    submit rt tid size deps out_dep s d
      = (status_t.runtime_error, out_dep, (ctx tid s d).2,
          ((d.call Call.before_exec_hook).call (Call.enqueue deps)).call
            Call.after_exec_hook) := by
  unfold submit
  simp only [hz, if_false, OCL_CHECK, hc, ne_eq, not_false_eq_true, if_true]

/-- The result of `submit` when the enqueue succeeds. -/
theorem submit_eq_ok (rt : Runtime) (tid : thread_id) (size : Nat)
    (deps out_dep : List cl_event) (s : ocl_stream_t) (d : Device)
    (hz : size ≠ 0)
    (hc : rt.enqueue (d.call Call.before_exec_hook) = CL_SUCCESS) :
    ∃ (s1 : ocl_stream_t) (d2 : Device), s1.ctx_ = (ctx tid s d).2.ctx_ ∧
      d2.static_empty_ctx = d.static_empty_ctx ∧
      submit rt tid size deps out_dep s d
        = (status_t.success, [d.next_event],
            set_current_deps tid d.next_event s1 d2) := by
  unfold submit
  simp only [hz, if_false, OCL_CHECK, hc, ne_eq, not_true_eq_false]
  refine ⟨_, _, ?_, ?_, rfl⟩
  · split <;> rfl
  · rfl

/-- The method `wait` leaves the static as it is. -/
theorem wait_eq_static (rt : Runtime) (s : ocl_stream_t) (d : Device) :
    (wait rt s d).2.2.static_empty_ctx = d.static_empty_ctx := by
  simp only [wait, clFinish]
  split <;> rfl

/-- The method `wait` leaves the stream as it is. -/
theorem wait_eq_stream (rt : Runtime) (s : ocl_stream_t) (d : Device) :
    (wait rt s d).2.1 = s := by
  simp only [wait]
  split <;> rfl

/-- What `submit` does to the contexts: the static is left alone, and so is
the slot of every other thread; on success the slot of the thread holds the
event that `out_dep` returns; otherwise it holds what the thread read before;
and a size of zero succeeds. -/
theorem submit_slots (rt : Runtime) (tid : thread_id) (size : Nat)
    (deps out_dep : List cl_event) (s : ocl_stream_t) (d : Device) :
    (submit rt tid size deps out_dep s d).2.2.2.static_empty_ctx
      = d.static_empty_ctx ∧
    (∀ B, tid ≠ B → (submit rt tid size deps out_dep s d).2.2.1.ctx_ B = s.ctx_ B) ∧
    ((submit rt tid size deps out_dep s d).1 = status_t.success →
      ∃ e, (submit rt tid size deps out_dep s d).2.1 = [e] ∧
        (submit rt tid size deps out_dep s d).2.2.1.ctx_ tid
          = some { events_ := [e] }) ∧
    ((submit rt tid size deps out_dep s d).1 ≠ status_t.success →
      (submit rt tid size deps out_dep s d).2.2.1.ctx_ tid
        = some ((s.ctx_ tid).getD d.static_empty_ctx)) ∧
    (size = 0 → (submit rt tid size deps out_dep s d).1 = status_t.success) := by
  by_cases hz : size = 0
  · subst hz
    rw [submit_eq_zero]
    obtain ⟨h1, h2, h3⟩ := set_current_deps_slots tid d.next_event (ctx tid s d).2
      { d with next_event := d.next_event + 1
               satisfied := d.satisfied ++ [d.next_event] }
    refine ⟨by rw [h3], ?_, fun _ => ⟨_, rfl, h1⟩, fun hne => absurd rfl hne,
      fun _ => rfl⟩
    intro B hB
    exact (h2 B hB).trans (ctx_slot_other tid B hB s d)
  · by_cases hc : rt.enqueue (d.call Call.before_exec_hook) = CL_SUCCESS
    · obtain ⟨s1, d2, hs1, hd2, heq⟩ := submit_eq_ok rt tid size deps out_dep s d hz hc
      rw [heq]
      obtain ⟨h1, h2, h3⟩ := set_current_deps_slots tid d.next_event s1 d2
      refine ⟨by rw [h3]; exact hd2, ?_, fun _ => ⟨_, rfl, h1⟩,
        fun hne => absurd rfl hne, fun h0 => absurd h0 hz⟩
      intro B hB
      rw [h2 B hB, hs1]
      exact ctx_slot_other tid B hB s d
    · rw [submit_eq_fail rt tid size deps out_dep s d hz hc]
      refine ⟨rfl, fun B hB => ctx_slot_other tid B hB s d, ?_,
        fun _ => ctx_slot_self tid s d, fun h0 => absurd h0 hz⟩
      intro hs
      exact absurd hs (fun h => status_t.noConfusion h)

/-- The same for a copy or fill. -/
theorem issue_slots (rt : Runtime) (tid : thread_id) (op : Op)
    (out_dep : List cl_event) (s : ocl_stream_t) (d : Device) :
    (op.issue rt tid out_dep s d).2.2.2.static_empty_ctx = d.static_empty_ctx ∧
    (∀ B, tid ≠ B → (op.issue rt tid out_dep s d).2.2.1.ctx_ B = s.ctx_ B) ∧
    ((op.issue rt tid out_dep s d).1 = status_t.success →
      ∃ e, (op.issue rt tid out_dep s d).2.1 = [e] ∧
        (op.issue rt tid out_dep s d).2.2.1.ctx_ tid = some { events_ := [e] }) ∧
    ((op.issue rt tid out_dep s d).1 ≠ status_t.success →
      (op.issue rt tid out_dep s d).2.2.1.ctx_ tid
        = some ((s.ctx_ tid).getD d.static_empty_ctx)) ∧
    (op.size = 0 → (op.issue rt tid out_dep s d).1 = status_t.success) := by
  cases op with
  | copy src dst size deps => exact submit_slots rt tid size deps out_dep s d
  | fill dst pattern size deps => exact submit_slots rt tid size deps out_dep s d

/-- What one call does to what thread `tid` reads: a copy or fill of that
thread that succeeds leaves one event; every other call leaves what the
thread read before.  No call changes the static. -/
theorem step_frontier (rt : Runtime) (tid : thread_id) (st : Step)
    (x : ocl_stream_t × Device) :
    (st.run rt x).2.static_empty_ctx = x.2.static_empty_ctx ∧
    (st.submits rt tid x = true →
      ∃ e, get_current_deps tid (st.run rt x).1 (st.run rt x).2 = [e]) ∧
    (st.submits rt tid x = false →
      get_current_deps tid (st.run rt x).1 (st.run rt x).2
        = get_current_deps tid x.1 x.2) := by
  cases st with
  | issue t op =>
    obtain ⟨h1, h2, h3, h4, -⟩ := issue_slots rt t op [] x.1 x.2
    refine ⟨h1, ?_, ?_⟩
    · intro hsub
      simp only [Step.submits, Bool.and_eq_true, decide_eq_true_eq] at hsub
      obtain ⟨ht, hok⟩ := hsub
      subst ht
      obtain ⟨e, -, he⟩ := h3 hok
      exact ⟨e, by simp [Step.run, get_current_deps_eq, he]⟩
    · intro hsub
      simp only [Step.run, get_current_deps_eq, h1]
      by_cases ht : t = tid
      · subst ht
        have hne : (op.issue rt t [] x.1 x.2).1 ≠ status_t.success := by
          intro hok
          simp [Step.submits, hok] at hsub
        rw [h4 hne]
        rfl
      · rw [h2 tid ht]
  | get_output_event t =>
    refine ⟨rfl, ?_, ?_⟩
    · intro hsub
      simp [Step.submits] at hsub
    · intro _
      simp only [Step.run, get_current_deps_eq, get_output_event]
      by_cases ht : t = tid
      · subst ht
        have h := ctx_slot_self t x.1 x.2
        split <;> simp [h]
      · have h := ctx_slot_other t tid ht x.1 x.2
        split <;> simp [h]
  | wait t =>
    refine ⟨?_, ?_, ?_⟩
    · simp [Step.run, wait_eq_static]
    · intro hsub
      simp [Step.submits] at hsub
    · intro _
      simp [Step.run, get_current_deps_eq, wait_eq_static, wait_eq_stream]

/-- What a sequence of calls does to what thread `tid` reads: once a copy or
fill of that thread has succeeded the thread reads one event; as long as none
has, it reads what it read at the start.  The static is never changed. -/
theorem run_steps_frontier (rt : Runtime) (tid : thread_id) :
    ∀ (steps : List Step) (x : ocl_stream_t × Device),
    (run_steps rt steps x).2.static_empty_ctx = x.2.static_empty_ctx ∧
    (has_submitted rt tid steps x = true →
      ∃ e, get_current_deps tid (run_steps rt steps x).1 (run_steps rt steps x).2
        = [e]) ∧
    (has_submitted rt tid steps x = false →
      get_current_deps tid (run_steps rt steps x).1 (run_steps rt steps x).2
        = get_current_deps tid x.1 x.2)
  | [], x => ⟨rfl, fun h => by simp [has_submitted] at h, fun _ => rfl⟩
  | st :: rest, x => by
    obtain ⟨a1, a2, a3⟩ := step_frontier rt tid st x
    obtain ⟨b1, b2, b3⟩ := run_steps_frontier rt tid rest (st.run rt x)
    refine ⟨b1.trans a1, ?_, ?_⟩
    · intro h
      simp only [has_submitted, Bool.or_eq_true] at h
      cases hr : has_submitted rt tid rest (st.run rt x) with
      | true => exact b2 hr
      | false =>
        have hs : st.submits rt tid x = true := by
          rcases h with h | h
          · exact h
          · rw [hr] at h
            exact absurd h (by decide)
        obtain ⟨e, he⟩ := a2 hs
        exact ⟨e, (b3 hr).trans he⟩
    · intro h
      simp only [has_submitted, Bool.or_eq_false_iff] at h
      exact (b3 h.2).trans (a3 h.1)

/-- A stream built by `create_stream`, with `init` as the spec has it, has no
context for any thread yet, and the static is as it was. -/
theorem create_stream_no_context (rt : Runtime) (stream : Option ocl_stream_t)
    (engine : engine_t) (flags : Nat) (d d1 : Device) (s : ocl_stream_t)
    (h : create_stream rt (init rt) stream engine flags d
      = (status_t.success, some s, d1)) :
    (∀ t, s.ctx_ t = none) ∧ d1.static_empty_ctx = d.static_empty_ctx := by
  have ha : rt.alloc_ok d = true := by
    by_contra hne
    simp [create_stream, hne] at h
  by_cases hq : (rt.create_queue ((d.call Call.alloc).call Call.init) engine
      flags).1 = CL_SUCCESS
  · have hok := init_create_succeeds rt (ocl_stream_t.ctor rt engine flags)
      ((d.call Call.alloc).call Call.init) rfl hq
    simp [create_stream, ha, hok] at h
    obtain ⟨hs, hd⟩ := h
    subst hs
    subst hd
    have hc := (init_bridges_fields rt (ocl_stream_t.ctor rt engine flags)
      ((d.call Call.alloc).call Call.init)).2.2.2.2
    exact ⟨fun t => by
      show (init_bridges rt (ocl_stream_t.ctor rt engine flags)
        ((d.call Call.alloc).call Call.init)).ctx_ t = none
      rw [hc]
      rfl, rfl⟩
  · have hfail := init_create_fails rt (ocl_stream_t.ctor rt engine flags)
      ((d.call Call.alloc).call Call.init) rfl hq
    simp [create_stream, ha, hfail] at h

/-- C7: a thread issues any operations on a stream and then one more, N ≥ 1 in
all.  If that last one returns `success`, its `out_dep` is one event, the
thread's context holds exactly that event, and `get_output_event` passes its
assertion and returns it, leaving the stream as it is.  An operation of size
zero always returns `success`, so this holds for it whatever the device does.
If the last one fails, the thread reads the frontier it read before.  As the
operations before are arbitrary, this holds after each submission. -/
theorem frontier_is_last_out_event (rt : Runtime) (tid : thread_id)
    (ops : List Op) (op : Op) (out_dep : List cl_event) (s : ocl_stream_t)
    (d : Device) :
    ((issue_last rt tid ops op (out_dep, s, d)).1 = status_t.success →
      ∃ e, (issue_last rt tid ops op (out_dep, s, d)).2.1 = [e] ∧
        get_current_deps tid (issue_last rt tid ops op (out_dep, s, d)).2.2.1
          (issue_last rt tid ops op (out_dep, s, d)).2.2.2 = [e] ∧
        get_output_event tid (issue_last rt tid ops op (out_dep, s, d)).2.2.1
          (issue_last rt tid ops op (out_dep, s, d)).2.2.2
          = (some e, (issue_last rt tid ops op (out_dep, s, d)).2.2.1)) ∧
    (op.size = 0 →
      (issue_last rt tid ops op (out_dep, s, d)).1 = status_t.success) ∧
    ((issue_last rt tid ops op (out_dep, s, d)).1 ≠ status_t.success →
      get_current_deps tid (issue_last rt tid ops op (out_dep, s, d)).2.2.1
          (issue_last rt tid ops op (out_dep, s, d)).2.2.2
        = get_current_deps tid (issue_all rt tid ops (out_dep, s, d)).2.1
            (issue_all rt tid ops (out_dep, s, d)).2.2) := by
  obtain ⟨h1, -, h3, h4, h5⟩ := issue_slots rt tid op
    (issue_all rt tid ops (out_dep, s, d)).1
    (issue_all rt tid ops (out_dep, s, d)).2.1
    (issue_all rt tid ops (out_dep, s, d)).2.2
  refine ⟨?_, h5, ?_⟩
  · intro hok
    obtain ⟨e, ho, hslot⟩ := h3 hok
    have hslot1 : (issue_last rt tid ops op (out_dep, s, d)).2.2.1.ctx_ tid
        = some { events_ := [e] } := hslot
    have hg : get_current_deps tid (issue_last rt tid ops op (out_dep, s, d)).2.2.1
        (issue_last rt tid ops op (out_dep, s, d)).2.2.2 = [e] := by
      simp [get_current_deps_eq, hslot1]
    refine ⟨e, ho, hg, ?_⟩
    have hfst := get_output_event_eq tid
      (issue_last rt tid ops op (out_dep, s, d)).2.2.1
      (issue_last rt tid ops op (out_dep, s, d)).2.2.2
    rw [hg] at hfst
    have hsnd : (get_output_event tid
        (issue_last rt tid ops op (out_dep, s, d)).2.2.1
        (issue_last rt tid ops op (out_dep, s, d)).2.2.2).2
        = (issue_last rt tid ops op (out_dep, s, d)).2.2.1 := by
      simp only [get_output_event, ctx, ocl_ctx, thread_local_storage_t.get,
        hslot1]
      split <;> rfl
    exact Prod.ext (by simpa using hfst) hsnd
  · intro hne
    have hslot : (issue_last rt tid ops op (out_dep, s, d)).2.2.1.ctx_ tid
        = some (((issue_all rt tid ops (out_dep, s, d)).2.1.ctx_ tid).getD
            (issue_all rt tid ops (out_dep, s, d)).2.2.static_empty_ctx) := h4 hne
    have hst : (issue_last rt tid ops op (out_dep, s, d)).2.2.2.static_empty_ctx
        = (issue_all rt tid ops (out_dep, s, d)).2.2.static_empty_ctx := h1
    simp [get_current_deps_eq, hslot]

/-- Witness of C7: a fill, a copy and a fill on thread 3 of the plain stream
return event 102, which thread 3 then reads; and a copy of size zero succeeds
on a device whose every enqueue fails. -/
theorem frontier_is_last_out_event_witness :
    (∃ e, (issue_last runtime0 3 [Op.fill 1 0 4096 [], Op.copy 1 2 1024 []]
          (Op.fill 1 0 4096 []) ([], stream_plain, device0)).2.1 = [e] ∧
        get_current_deps 3
          (issue_last runtime0 3 [Op.fill 1 0 4096 [], Op.copy 1 2 1024 []]
            (Op.fill 1 0 4096 []) ([], stream_plain, device0)).2.2.1
          (issue_last runtime0 3 [Op.fill 1 0 4096 [], Op.copy 1 2 1024 []]
            (Op.fill 1 0 4096 []) ([], stream_plain, device0)).2.2.2 = [e] ∧
        get_output_event 3
          (issue_last runtime0 3 [Op.fill 1 0 4096 [], Op.copy 1 2 1024 []]
            (Op.fill 1 0 4096 []) ([], stream_plain, device0)).2.2.1
          (issue_last runtime0 3 [Op.fill 1 0 4096 [], Op.copy 1 2 1024 []]
            (Op.fill 1 0 4096 []) ([], stream_plain, device0)).2.2.2
          = (some e,
              (issue_last runtime0 3 [Op.fill 1 0 4096 [], Op.copy 1 2 1024 []]
                (Op.fill 1 0 4096 []) ([], stream_plain, device0)).2.2.1)) ∧
    (issue_last runtime_failing 3 [] (Op.copy 1 2 0 [])
      ([], stream_plain, device0)).1 = status_t.success :=
  ⟨(frontier_is_last_out_event runtime0 3
      [Op.fill 1 0 4096 [], Op.copy 1 2 1024 []] (Op.fill 1 0 4096 []) []
      stream_plain device0).1 rfl,
    (frontier_is_last_out_event runtime_failing 3 [] (Op.copy 1 2 0 []) []
      stream_plain device0).2.1 rfl⟩

/-- C8, as stated, fails: on the stream `create_stream` builds with default
flags, a thread that has issued nothing gets its context from the empty
default context; that context holds no event and the assertion of
`get_output_event` fails. -/
theorem get_output_event_fresh_thread_fails :
    (create_stream runtime0 (init runtime0) none 1 0 device0).1
      = status_t.success ∧
    (create_stream runtime0 (init runtime0) none 1 0 device0).2.1.map
        (fun s =>
          (get_current_deps 5 s
              (create_stream runtime0 (init runtime0) none 1 0 device0).2.2,
            (get_output_event 5 s
              (create_stream runtime0 (init runtime0) none 1 0 device0).2.2).1))
      = some ([], none) := by
  constructor <;> rfl

/-- C8, amended: take a stream as `create_stream` builds it (no thread has a
context yet, the static `empty_ctx` is empty) and any sequence of copy, fill,
`get_output_event` and `wait` calls by any threads.  After it no thread's
context holds several events.  For a calling thread one of whose copies or
fills has succeeded, `get_output_event` finds exactly one event, so the
assertion holds, and returns it, `deps[0]`.  For a calling thread none of
whose copies or fills has succeeded, also one whose context is created from
the empty default context on this very call, the context holds no event and
the assertion fails. -/
theorem get_output_event_after_run (rt : Runtime) (steps : List Step)
    (tid : thread_id) (s : ocl_stream_t) (d : Device)
    (hs : ∀ t, s.ctx_ t = none) (hd : d.static_empty_ctx = empty_ctx) :
    (get_current_deps tid (run_steps rt steps (s, d)).1
      (run_steps rt steps (s, d)).2).length ≤ 1 ∧
    (has_submitted rt tid steps (s, d) = true →
      ∃ e, get_current_deps tid (run_steps rt steps (s, d)).1
          (run_steps rt steps (s, d)).2 = [e] ∧
        (get_output_event tid (run_steps rt steps (s, d)).1
          (run_steps rt steps (s, d)).2).1 = some e) ∧
    (has_submitted rt tid steps (s, d) = false →
      get_current_deps tid (run_steps rt steps (s, d)).1
          (run_steps rt steps (s, d)).2 = [] ∧
        (get_output_event tid (run_steps rt steps (s, d)).1
          (run_steps rt steps (s, d)).2).1 = none) := by
  obtain ⟨-, h2, h3⟩ := run_steps_frontier rt tid steps (s, d)
  have h0 : get_current_deps tid s d = [] := by
    simp [get_current_deps_eq, hs tid, hd, empty_ctx]
  have hyes : has_submitted rt tid steps (s, d) = true →
      ∃ e, get_current_deps tid (run_steps rt steps (s, d)).1
          (run_steps rt steps (s, d)).2 = [e] ∧
        (get_output_event tid (run_steps rt steps (s, d)).1
          (run_steps rt steps (s, d)).2).1 = some e := by
    intro h
    obtain ⟨e, he⟩ := h2 h
    exact ⟨e, he, by rw [get_output_event_eq, he]; rfl⟩
  have hno : has_submitted rt tid steps (s, d) = false →
      get_current_deps tid (run_steps rt steps (s, d)).1
          (run_steps rt steps (s, d)).2 = [] ∧
        (get_output_event tid (run_steps rt steps (s, d)).1
          (run_steps rt steps (s, d)).2).1 = none := by
    intro h
    have he := (h3 h).trans h0
    exact ⟨he, by rw [get_output_event_eq, he]; rfl⟩
  refine ⟨?_, hyes, hno⟩
  cases h : has_submitted rt tid steps (s, d) with
  | true =>
    obtain ⟨e, he, -⟩ := hyes h
    simp [he]
  | false => simp [(hno h).1]

/-- Witness of C8 amended: thread 3 fills, thread 5 asks for its output event,
thread 3 fills again with a size of zero and waits.  Thread 3 then gets event
101, thread 5 fails the assertion. -/
theorem get_output_event_after_run_witness :
    (∀ t, stream_plain.ctx_ t = none) ∧ device0.static_empty_ctx = empty_ctx ∧
    (∃ e, get_current_deps 3
        (run_steps runtime0
          [Step.issue 3 (Op.fill 1 0 4096 []), Step.get_output_event 5,
            Step.issue 3 (Op.fill 1 0 0 []), Step.wait 3]
          (stream_plain, device0)).1
        (run_steps runtime0
          [Step.issue 3 (Op.fill 1 0 4096 []), Step.get_output_event 5,
            Step.issue 3 (Op.fill 1 0 0 []), Step.wait 3]
          (stream_plain, device0)).2 = [e] ∧
      (get_output_event 3
        (run_steps runtime0
          [Step.issue 3 (Op.fill 1 0 4096 []), Step.get_output_event 5,
            Step.issue 3 (Op.fill 1 0 0 []), Step.wait 3]
          (stream_plain, device0)).1
        (run_steps runtime0
          [Step.issue 3 (Op.fill 1 0 4096 []), Step.get_output_event 5,
            Step.issue 3 (Op.fill 1 0 0 []), Step.wait 3]
          (stream_plain, device0)).2).1 = some e) ∧
    (get_output_event 5
      (run_steps runtime0
        [Step.issue 3 (Op.fill 1 0 4096 []), Step.get_output_event 5,
          Step.issue 3 (Op.fill 1 0 0 []), Step.wait 3]
        (stream_plain, device0)).1
      (run_steps runtime0
        [Step.issue 3 (Op.fill 1 0 4096 []), Step.get_output_event 5,
          Step.issue 3 (Op.fill 1 0 0 []), Step.wait 3]
        (stream_plain, device0)).2).1 = none :=
  ⟨fun _ => rfl, rfl,
    (get_output_event_after_run runtime0
      [Step.issue 3 (Op.fill 1 0 4096 []), Step.get_output_event 5,
        Step.issue 3 (Op.fill 1 0 0 []), Step.wait 3]
      3 stream_plain device0 (fun _ => rfl) rfl).2.1 rfl,
    ((get_output_event_after_run runtime0
      [Step.issue 3 (Op.fill 1 0 4096 []), Step.get_output_event 5,
        Step.issue 3 (Op.fill 1 0 0 []), Step.wait 3]
      5 stream_plain device0 (fun _ => rfl) rfl).2.2 rfl).2⟩

/-- C9: for distinct threads A and B of one stream, the reference `ctx()` gives
on A designates another object than the one it gives on B, whenever the two
calls are made: each designates the instance of its own thread, which exists
after the call, and neither designates the shared static `empty_ctx`.  So a
new frontier recorded on A, by `set_current_deps` or by any copy or fill,
whatever its status, is what A reads and leaves what B reads with
`ctx().get_deps()` and what `get_output_event` gives B as they were; and
whatever calls any threads make, B reads what it read before as long as no
copy or fill of B itself has succeeded. -/
theorem contexts_are_per_thread (rt : Runtime) (A B : thread_id) (hAB : A ≠ B)
    (s : ocl_stream_t) (d : Device) :
    (∀ (s2 : ocl_stream_t) (d2 : Device), (ctx A s d).1 ≠ (ctx B s2 d2).1) ∧
    (ctx A s d).1 = ref_t.instance_of A ∧
    (ctx A s d).1 ≠ ref_t.ifnotfound ∧
    (∃ c, (ctx A s d).2.ctx_ A = some c) ∧
    (ctx A s d).2.ctx_ B = s.ctx_ B ∧
    (∀ event : cl_event,
      get_current_deps A (set_current_deps A event s d).1
          (set_current_deps A event s d).2 = [event] ∧
      get_current_deps B (set_current_deps A event s d).1
          (set_current_deps A event s d).2 = get_current_deps B s d ∧
      (get_output_event B (set_current_deps A event s d).1
          (set_current_deps A event s d).2).1 = (get_output_event B s d).1) ∧
    (∀ (op : Op) (out_dep : List cl_event),
      get_current_deps B (op.issue rt A out_dep s d).2.2.1
          (op.issue rt A out_dep s d).2.2.2 = get_current_deps B s d ∧
      (get_output_event B (op.issue rt A out_dep s d).2.2.1
          (op.issue rt A out_dep s d).2.2.2).1 = (get_output_event B s d).1) ∧
    (∀ steps : List Step, has_submitted rt B steps (s, d) = false →
      get_current_deps B (run_steps rt steps (s, d)).1
          (run_steps rt steps (s, d)).2 = get_current_deps B s d) := by
  refine ⟨?_, ctx_ref A s d, ?_, ⟨_, ctx_slot_self A s d⟩,
    ctx_slot_other A B hAB s d, ?_, ?_, ?_⟩
  · intro s2 d2
    rw [ctx_ref, ctx_ref]
    intro h
    exact hAB (ref_t.instance_of.inj h)
  · rw [ctx_ref]
    intro h
    exact ref_t.noConfusion h
  · intro event
    obtain ⟨h1, h2, h3⟩ := set_current_deps_slots A event s d
    have hB : get_current_deps B (set_current_deps A event s d).1
        (set_current_deps A event s d).2 = get_current_deps B s d := by
      simp [get_current_deps_eq, h2 B hAB, h3]
    refine ⟨by simp [get_current_deps_eq, h1], hB, ?_⟩
    rw [get_output_event_eq, get_output_event_eq, hB]
  · intro op out_dep
    obtain ⟨h1, h2, -, -, -⟩ := issue_slots rt A op out_dep s d
    have hB : get_current_deps B (op.issue rt A out_dep s d).2.2.1
        (op.issue rt A out_dep s d).2.2.2 = get_current_deps B s d := by
      simp [get_current_deps_eq, h2 B hAB, h1]
    refine ⟨hB, ?_⟩
    rw [get_output_event_eq, get_output_event_eq, hB]
  · intro steps h
    exact (run_steps_frontier rt B steps (s, d)).2.2 h

/-- Witness of C9: thread 5 holds event 50; thread 3 gets another object,
records event 100 and reads it, and thread 5 still gets event 50. -/
theorem contexts_are_per_thread_witness :
    (3 : thread_id) ≠ 5 ∧
    (ctx 3 (set_current_deps 5 50 stream_plain device0).1 device0).1
      ≠ (ctx 5 (set_current_deps 5 50 stream_plain device0).1 device0).1 ∧
    get_current_deps 3
      (set_current_deps 3 100 (set_current_deps 5 50 stream_plain device0).1
        device0).1
      (set_current_deps 3 100 (set_current_deps 5 50 stream_plain device0).1
        device0).2 = [100] ∧
    (get_output_event 5
      (set_current_deps 3 100 (set_current_deps 5 50 stream_plain device0).1
        device0).1
      (set_current_deps 3 100 (set_current_deps 5 50 stream_plain device0).1
        device0).2).1 = some 50 :=
  ⟨by decide,
    (contexts_are_per_thread runtime0 3 5 (by decide)
      (set_current_deps 5 50 stream_plain device0).1 device0).1 _ _,
    ((contexts_are_per_thread runtime0 3 5 (by decide)
      (set_current_deps 5 50 stream_plain device0).1 device0).2.2.2.2.2.1 100).1,
    ((contexts_are_per_thread runtime0 3 5 (by decide)
      (set_current_deps 5 50 stream_plain device0).1
      device0).2.2.2.2.2.1 100).2.2.trans rfl⟩

end OclStream
